import Mathlib

/-!
Verification of the router service (FastAPI skeleton) against its
natural-language specification.  The Python sources under `app/` and `db/`
are shallowly embedded as executable Lean definitions: JSON values and the
`json.dumps` serializations used by the code, the SHA-256 digest used for
canonical message ids, the keyword classifier, the circuit breaker, the
rate limiter, the parallel executor, the agent caller with its retry
wrapper, the `/route` handler tail, and the DLQ replay item processor.
All machine arithmetic is modelled on `Nat`/`Int`/`ℚ` with explicit
`% 2^32` where the 32-bit compression of SHA-256 wraps.
-/

namespace RouterSpec

/-- JSON values as produced by Python's `json` module for the payloads this
service handles (objects keep insertion order, numbers restricted to the
integers that appear in request payloads). -/
inductive Json where
  | null : Json
  | bool (b : Bool) : Json
  | num (n : Int) : Json
  | str (s : String) : Json
  | arr (elems : List Json) : Json
  | obj (fields : List (String × Json)) : Json
  deriving Repr

/-- Lower-case hex digit, as used by `hashlib.sha256(...).hexdigest()` and
`json`'s `\uXXXX` escapes. -/
def hexDigitChar (n : Nat) : Char :=
  if n < 10 then Char.ofNat (48 + n) else Char.ofNat (87 + n)

/-- Fixed-width big-endian hex rendering of a natural number. -/
def hexFixed : Nat → Nat → List Char
  | 0, _ => []
  | Nat.succ k, n => hexFixed k (n / 16) ++ [hexDigitChar (n % 16)]

/-- Four hex digits, `'{0:04x}'.format n` for `n < 0x10000`. -/
def hex4 (n : Nat) : String := String.mk (hexFixed 4 n)

/-- Eight hex digits of a 32-bit word. -/
def hex8 (n : Nat) : String := String.mk (hexFixed 8 n)

/-- The `\uXXXX` escape of a code point, with surrogate pairs above the BMP,
exactly as Python's `json` encoder emits with `ensure_ascii=True`. -/
def uescape (n : Nat) : String :=
  if n < 65536 then "\\u" ++ hex4 n
  else
    let m := n - 65536
    "\\u" ++ hex4 (55296 + m / 1024) ++ "\\u" ++ hex4 (56320 + m % 1024)

/-- Escaping of one character inside a JSON string literal
(`json.encoder.ESCAPE_ASCII`: `\\`, `\"`, the named control escapes, and
`\uXXXX` for everything outside `0x20..0x7e`). -/
def escapeChar (c : Char) : String :=
  if c = '\\' then "\\\\"
  else if c = '"' then "\\\""
  else if c = '\n' then "\\n"
  else if c = '\r' then "\\r"
  else if c = '\t' then "\\t"
  else if c.toNat = 8 then "\\b"
  else if c.toNat = 12 then "\\f"
  else if 32 ≤ c.toNat ∧ c.toNat ≤ 126 then String.singleton c
  else uescape c.toNat

/-- A JSON string literal with quotes, as `json.dumps` renders a `str`. -/
def quoteJson (s : String) : String :=
  "\"" ++ String.join (s.toList.map escapeChar) ++ "\""

/-- Ordering of rendered object entries by key, the order `sort_keys=True`
produces (Python compares `str` by code points, as does `String ≤`). -/
def keyLE (a b : String × String) : Prop := a.1 ≤ b.1

instance : DecidableRel keyLE := fun a b =>
  inferInstanceAs (Decidable (a.1 ≤ b.1))

instance : IsTotal (String × String) keyLE :=
  ⟨fun a b => le_total a.1 b.1⟩

instance : IsTrans (String × String) keyLE :=
  ⟨fun _ _ _ h1 h2 => le_trans h1 h2⟩

/-- Strict version of `keyLE`, used to show sorted entry lists with
distinct keys are unique. -/
def keyLT (a b : String × String) : Prop := a.1 < b.1

instance : IsAntisymm (String × String) keyLT :=
  ⟨fun _ _ h1 h2 => absurd h2 (lt_asymm h1)⟩

/-- Sorting of rendered object entries used when `sort_keys=True`. -/
def sortPairs (l : List (String × String)) : List (String × String) :=
  List.insertionSort keyLE l

mutual

/-- Model of `json.dumps` with item separator `isep`, key separator `ksep`, and
`sort_keys = sortK` — the two configurations the code uses are
`(",", ":")` sorted (canonical ids) and `(", ", ": ")` unsorted
(classification text). -/
def dumpJson (sortK : Bool) (isep ksep : String) : Json → String
  | .null => "null"
  | .bool true => "true"
  | .bool false => "false"
  | .num n => toString n
  | .str s => quoteJson s
  | .arr es => "[" ++ String.intercalate isep (dumpArr sortK isep ksep es) ++ "]"
  | .obj fs =>
      let rendered := dumpFields sortK isep ksep fs
      let ordered := if sortK then sortPairs rendered else rendered
      "\x7b" ++
        String.intercalate isep
          (ordered.map (fun kv => quoteJson kv.1 ++ ksep ++ kv.2)) ++ "\x7d"

/-- Serialization of the elements of a JSON array. -/
def dumpArr (sortK : Bool) (isep ksep : String) : List Json → List String
  | [] => []
  | e :: rest => dumpJson sortK isep ksep e :: dumpArr sortK isep ksep rest

/-- Serialization of the values of a JSON object, keys kept. -/
def dumpFields (sortK : Bool) (isep ksep : String) :
    List (String × Json) → List (String × String)
  | [] => []
  | kv :: rest =>
      (kv.1, dumpJson sortK isep ksep kv.2) :: dumpFields sortK isep ksep rest

end

/-- Model of `json.dumps(x, sort_keys=True, separators=(',', ':'))` — the canonical
serialization used for message ids. -/
def canonicalDumps (j : Json) : String := dumpJson true "," ":" j

/-- Model of `json.dumps(x)` with Python's defaults — used by the classifier and the
replay worker's simplified classification. -/
def defaultDumps (j : Json) : String := dumpJson false ", " ": " j

/-- Model of `str.lower()` restricted to ASCII, which covers every keyword the
classifier searches for. -/
def lowerStr (s : String) : String := String.map Char.toLower s

/-- Predicate `startsWithL p l` : `l` begins with `p` (on character lists). -/
def startsWithL : List Char → List Char → Bool
  | [], _ => true
  | _ :: _, [] => false
  | p :: ps, c :: cs => p = c && startsWithL ps cs

/-- Substring occurrence on character lists. -/
def containsSub (pat : List Char) : List Char → Bool
  | [] => startsWithL pat []
  | c :: cs => startsWithL pat (c :: cs) || containsSub pat cs

/-- Python's `pat in hay` on strings. -/
def strContains (hay pat : String) : Bool := containsSub pat.toList hay.toList

/-- UTF-8 encoding of one character (`str.encode()`), bytes as `Nat`. -/
def utf8Char (c : Char) : List Nat :=
  let n := c.toNat
  if n < 128 then [n]
  else if n < 2048 then [192 + n / 64, 128 + n % 64]
  else if n < 65536 then [224 + n / 4096, 128 + n / 64 % 64, 128 + n % 64]
  else [240 + n / 262144, 128 + n / 4096 % 64, 128 + n / 64 % 64, 128 + n % 64]

/-- UTF-8 encoding of a string as a byte list. -/
def utf8Bytes (s : String) : List Nat := (s.toList.map utf8Char).flatten

/-- Reduction modulo 2^32, the word size of SHA-256. -/
def w32 (n : Nat) : Nat := n % 4294967296

/-- Rotation of a 32-bit word to the right. -/
def rotr32 (n x : Nat) : Nat := w32 ((x >>> n) ||| (x <<< (32 - n)))

/-- Complement of a 32-bit word. -/
def not32 (x : Nat) : Nat := x ^^^ 4294967295

/-- SHA-256 Σ₀. -/
def bigSigma0 (x : Nat) : Nat := rotr32 2 x ^^^ rotr32 13 x ^^^ rotr32 22 x

/-- SHA-256 Σ₁. -/
def bigSigma1 (x : Nat) : Nat := rotr32 6 x ^^^ rotr32 11 x ^^^ rotr32 25 x

/-- SHA-256 σ₀. -/
def smallSigma0 (x : Nat) : Nat := rotr32 7 x ^^^ rotr32 18 x ^^^ (x >>> 3)

/-- SHA-256 σ₁. -/
def smallSigma1 (x : Nat) : Nat := rotr32 17 x ^^^ rotr32 19 x ^^^ (x >>> 10)

/-- SHA-256 Ch. -/
def chFn (x y z : Nat) : Nat := (x &&& y) ^^^ (not32 x &&& z)

/-- SHA-256 Maj. -/
def majFn (x y z : Nat) : Nat := (x &&& y) ^^^ (x &&& z) ^^^ (y &&& z)

/-- The 64 SHA-256 round constants. -/
def shaK : List Nat :=
  [1116352408, 1899447441, 3049323471, 3921009573, 961987163, 1508970993,
   2453635748, 2870763221, 3624381080, 310598401, 607225278, 1426881987,
   1925078388, 2162078206, 2614888103, 3248222580, 3835390401, 4022224774,
   264347078, 604807628, 770255983, 1249150122, 1555081692, 1996064986,
   2554220882, 2821834349, 2952996808, 3210313671, 3336571891, 3584528711,
   113926993, 338241895, 666307205, 773529912, 1294757372, 1396182291,
   1695183700, 1986661051, 2177026350, 2456956037, 2730485921, 2820302411,
   3259730800, 3345764771, 3516065817, 3600352804, 4094571909, 275423344,
   430227734, 506948616, 659060556, 883997877, 958139571, 1322822218,
   1537002063, 1747873779, 1955562222, 2024104815, 2227730452, 2361852424,
   2428436474, 2756734187, 3204031479, 3329325298]

/-- The SHA-256 initial hash value. -/
def shaH0 : List Nat :=
  [1779033703, 3144134277, 1013904242, 2773480762, 1359893119, 2600822924,
   528734635, 1541459225]

/-- One extension step of the SHA-256 message schedule. -/
def scheduleStep (w : List Nat) : List Nat :=
  let n := w.length
  w ++ [w32 (smallSigma1 (w.getD (n - 2) 0) + w.getD (n - 7) 0 +
             smallSigma0 (w.getD (n - 15) 0) + w.getD (n - 16) 0)]

/-- The 64-word message schedule of one block. -/
def shaSchedule (block : List Nat) : List Nat :=
  (List.range 48).foldl (fun w _ => scheduleStep w) block

/-- One SHA-256 compression round on the register list `[a,…,h]`. -/
def shaStep (regs : List Nat) (kw : Nat × Nat) : List Nat :=
  match regs with
  | [a, b, c, d, e, f, g, h] =>
      let t1 := w32 (h + bigSigma1 e + chFn e f g + kw.1 + kw.2)
      let t2 := w32 (bigSigma0 a + majFn a b c)
      [w32 (t1 + t2), a, b, c, w32 (d + t1), e, f, g]
  | other => other

/-- Compression of one 16-word block into the running hash. -/
def shaCompressBlock (hs block : List Nat) : List Nat :=
  let ws := shaSchedule block
  let regs := (List.zip shaK ws).foldl shaStep hs
  List.zipWith (fun x y => w32 (x + y)) hs regs

/-- Big-endian 8-byte length field of the padding. -/
def lenBytes (bits : Nat) : List Nat :=
  (List.range 8).map (fun i => bits >>> (8 * (7 - i)) % 256)

/-- SHA-256 message padding. -/
def padMessage (msg : List Nat) : List Nat :=
  let L := msg.length
  msg ++ [128] ++ List.replicate ((119 - L % 64) % 64) 0 ++ lenBytes (8 * L)

/-- Split a padded message into `n` blocks of 64 bytes. -/
def splitBlocks : Nat → List Nat → List (List Nat)
  | 0, _ => []
  | Nat.succ m, xs => xs.take 64 :: splitBlocks m (xs.drop 64)

/-- Big-endian 32-bit words of one 64-byte block. -/
def toWords (block : List Nat) : List Nat :=
  (List.range 16).map (fun i =>
    block.getD (4 * i) 0 * 16777216 + block.getD (4 * i + 1) 0 * 65536 +
    block.getD (4 * i + 2) 0 * 256 + block.getD (4 * i + 3) 0)

/-- The eight 32-bit words of the SHA-256 digest of a byte list. -/
def sha256Words (msg : List Nat) : List Nat :=
  let padded := padMessage msg
  (splitBlocks (padded.length / 64) padded).foldl
    (fun hs b => shaCompressBlock hs (toWords b)) shaH0

/-- Model of `hashlib.sha256(s.encode()).hexdigest()`. -/
def sha256hex (s : String) : String :=
  String.join ((sha256Words (utf8Bytes s)).map hex8)

/-! ### Metrics (app/metrics.py plus the counters referenced in app/utils.py) -/

/-- The labelled counters the embedded code paths touch, each as a map from
its label tuple to a count. -/
structure Metrics where
  ingressTotal : String → Nat
  downstreamSuccess : String → Nat
  downstreamFail : String × String → Nat
  dlqTotal : String → Nat
  replayItems : String × String → Nat
  rejectedTotal : String → Nat
  rateLimitHits : String → Nat
  breakerTrips : String → Nat
  retryAttempts : String × String → Nat

/-- All counters at zero. -/
def Metrics.zero : Metrics :=
  ⟨fun _ => 0, fun _ => 0, fun _ => 0, fun _ => 0, fun _ => 0, fun _ => 0,
   fun _ => 0, fun _ => 0, fun _ => 0⟩

/-- Model of `counter.labels(k).inc()`. -/
def bump {κ : Type} [DecidableEq κ] (f : κ → Nat) (k : κ) : κ → Nat :=
  Function.update f k (f k + 1)

/-! ### app/router.py : static configuration and classifier -/

/-- The `KIND_MAP` table from app/router.py. -/
def KIND_MAP : List (String × List String) :=
  [("assist", ["Axis"]), ("policy", ["M"]), ("emergency", ["M", "Axis"]),
   ("unknown", ["DLQ"])]

/-- The `AGENT_ENDPOINTS` table from app/router.py (`DLQ` has no endpoint). -/
def AGENT_ENDPOINTS : List (String × Option String) :=
  [("Axis", some "http://mock-agents:8001/route"),
   ("M", some "http://mock-agents:8001/process"), ("DLQ", none)]

/-- The `KEYWORDS` table from app/router.py, in source order. -/
def KEYWORDS : List (String × List String) :=
  [("emergency", ["urgent", "911", "crisis", "panic", "immediately"]),
   ("policy", ["policy", "compliance", "consent", "hipaa", "gdpr"]),
   ("assist", ["help", "assist", "question", "explain", "clarify"])]

/-- Python's `max(items, key=score)`: the first item of maximal score wins,
later items replace the current best only when strictly greater. -/
def pickMax : List (String × ℚ) → Option (String × ℚ)
  | [] => none
  | x :: xs => some (xs.foldl (fun best y => if y.2 > best.2 then y else best) x)

/-- Model of `classify` from app/router.py: keyword scoring over the lower-cased
default `json.dumps` of the payload. -/
def classify (payload : List (String × Json)) : String × ℚ :=
  let text := lowerStr (defaultDumps (Json.obj payload))
  let scores := KEYWORDS.filterMap (fun kv =>
    let score : ℚ :=
      ((kv.2.map (fun k => if strContains text k then (3 : ℚ) else 0)).sum) /
        ((kv.2.length : ℚ) * 3)
    if score > 0 then some (kv.1, min (score + 1/2) (99/100)) else none)
  match pickMax scores with
  | some best => best
  | none => ("unknown", 1/2)

/-- The classifier as the specification words it (refinement model for the
claim): serialize to a case-insensitive string, per kind compute
`raw = 3·matches / (3·|keywords|)`, score `min(raw + 0.5, 0.99)` when
`raw > 0`, pick the highest score with ties broken in the order
`emergency > policy > assist`, and `("unknown", 0.5)` when nothing scores. -/
def classifyClaim (payload : List (String × Json)) : String × ℚ :=
  let text := lowerStr (defaultDumps (Json.obj payload))
  let scored := ["emergency", "policy", "assist"].filterMap (fun kind =>
    let kws := (KEYWORDS.lookup kind).getD []
    let nmatches := kws.countP (fun k => strContains text k)
    let raw : ℚ := (3 * nmatches : ℚ) / (3 * (kws.length : ℚ))
    if raw > 0 then some (kind, min (raw + 1/2) (99/100)) else none)
  match pickMax scored with
  | some best => best
  | none => ("unknown", 1/2)

/-- Model of `agents_for` from app/router.py. -/
def agents_for (kind : String) : List String :=
  (KIND_MAP.lookup kind).getD ["DLQ"]

/-- The three branches of the fan-out section of `route_to_agents`
(app/router.py lines 274-290): the empty-agents DLQ write, the `["DLQ"]`
short-circuit, and the parallel fan-out. -/
inductive FanoutBranch where
  | emptyAgents : FanoutBranch
  | dlqOnly : FanoutBranch
  | fanout : FanoutBranch
  deriving DecidableEq, Repr

/-- Which branch `route_to_agents` takes for a given kind. -/
def route_branch (kind : String) : FanoutBranch :=
  let agents := agents_for kind
  if agents.isEmpty then .emptyAgents
  else if agents = ["DLQ"] then .dlqOnly
  else .fanout

/-! ### app/router.py : canonical message id -/

/-- Python truthiness of an optional string (`if event_id:`). -/
def truthyStr : Option String → Bool
  | some s => !(s == "")
  | none => false

/-- The volatile fields excluded from the canonical payload. -/
def volatileKeys : List String := ["trace_id", "timestamp", "ts"]

/-- The dict comprehension dropping volatile fields in
`generate_canonical_message_id`. -/
def canonicalPayload (payload : List (String × Json)) : List (String × Json) :=
  payload.filter (fun kv => !(volatileKeys.contains kv.1))

/-- Model of `json.dumps(canonical_payload, sort_keys=True, separators=(',', ':'))`. -/
def canonicalJsonOf (payload : List (String × Json)) : String :=
  canonicalDumps (Json.obj (canonicalPayload payload))

/-- The identifier selection inside `generate_canonical_message_id`:
`event_id` if truthy, else `user_id ":" ts_iso` if truthy, else
`sha256(canonical_json)[:16]`. -/
def identifierOf (event_id user_id : Option String) (ts_iso canonical_json : String) :
    String :=
  if truthyStr event_id then event_id.getD ""
  else if truthyStr user_id then user_id.getD "" ++ ":" ++ ts_iso
  else (sha256hex canonical_json).take 16

/-- Model of `generate_canonical_message_id` from app/router.py. -/
def generate_canonical_message_id (tenant_id : String)
    (event_id user_id : Option String) (ts_iso : String) (payload_version : Int)
    (payload : List (String × Json)) : String :=
  let canonical_json := canonicalJsonOf payload
  let identifier := identifierOf event_id user_id ts_iso canonical_json
  let hash_components :=
    tenant_id ++ ":" ++ identifier ++ ":" ++ toString payload_version ++ ":" ++
      canonical_json
  (sha256hex hash_components).take 32

/-! ### app/utils.py : rate limiter -/

/-- The `RateLimiter` state: per-sender map from epoch second to request count. -/
structure RateLimiter where
  limit_per_second : Nat
  window_size : Nat
  windows : List (String × List (Int × Nat))

/-- The module-level `rate_limiter = RateLimiter()` with its constructor
defaults `limit_per_second=100`, `window_size=60`. -/
def rate_limiter : RateLimiter := ⟨100, 60, []⟩

/-- Model of `self.windows[sender_id] = cleaned` on an association list. -/
def setWindow : List (String × List (Int × Nat)) → String → List (Int × Nat) →
    List (String × List (Int × Nat))
  | [], s, w => [(s, w)]
  | (k, v) :: rest, s, w =>
      if k = s then (s, w) :: rest else (k, v) :: setWindow rest s w

/-- Incrementing the counter for the current second
(`self.windows[sender_id][current_time] += 1`, inserting 1 if absent). -/
def bumpAt : List (Int × Nat) → Int → List (Int × Nat)
  | [], t => [(t, 1)]
  | (ts, c) :: rest, t =>
      if ts = t then (ts, c + 1) :: rest else (ts, c) :: bumpAt rest t

/-- Model of `RateLimiter.check_rate_limit` from app/utils.py: clean entries older
than the window, admit iff the summed counts are below
`limit_per_second * window_size`, increment `RATE_LIMIT_HITS{sender_id}` on
rejection, record the current second on admission. -/
def check_rate_limit (rl : RateLimiter) (m : Metrics) (now : Int)
    (sender_id : String) : RateLimiter × Metrics × Bool :=
  let w0 := (rl.windows.lookup sender_id).getD []
  let window_start : Int := now - rl.window_size
  let cleaned := w0.filter (fun p => window_start ≤ p.1)
  let total := (cleaned.map Prod.snd).sum
  if rl.limit_per_second * rl.window_size ≤ total then
    ({rl with windows := setWindow rl.windows sender_id cleaned},
     {m with rateLimitHits := bump m.rateLimitHits sender_id}, false)
  else
    ({rl with windows := setWindow rl.windows sender_id (bumpAt cleaned now)},
     m, true)

/-- The `check_rate_limit` FastAPI dependency in app/main.py: extract the
sender (`body.get("sender_id", "unknown")`, `"unknown"` when the body does
not parse), consult the limiter, and raise
`HTTPException(429, "Rate limit exceeded")` on rejection. -/
def http_check_rate_limit (rl : RateLimiter) (m : Metrics) (now : Int)
    (body_sender : Option String) :
    RateLimiter × Metrics × Except (Nat × String) Unit :=
  let sender_id := body_sender.getD "unknown"
  let (rl2, m2, ok) := check_rate_limit rl m now sender_id
  (rl2, m2, if ok then Except.ok () else Except.error (429, "Rate limit exceeded"))

/-! ### app/utils.py : circuit breaker -/

/-- The `CircuitBreaker` state (absent dict entries read as count 0 / no open
deadline, matching the `if agent not in ...` initialisation). -/
structure CircuitBreaker where
  failure_threshold : Nat
  recovery_time : ℚ
  failure_counts : String → Nat
  circuit_open_until : String → Option ℚ

/-- The module-level `circuit_breaker = CircuitBreaker()` with its
constructor defaults `failure_threshold=5`, `recovery_time=30`. -/
def circuit_breaker : CircuitBreaker := ⟨5, 30, fun _ => 0, fun _ => none⟩

/-- Model of `CircuitBreaker.is_circuit_open`: true while `open_until` lies in the
future; once it has passed the entry is cleared and the failure count reset. -/
def is_circuit_open (cb : CircuitBreaker) (now : ℚ) (agent : String) :
    CircuitBreaker × Bool :=
  match cb.circuit_open_until agent with
  | some u =>
      if now < u then (cb, true)
      else
        ({cb with
            circuit_open_until := Function.update cb.circuit_open_until agent none,
            failure_counts := Function.update cb.failure_counts agent 0}, false)
  | none => (cb, false)

/-- Model of `CircuitBreaker.record_success`: reset the agent's failure count. -/
def record_success (cb : CircuitBreaker) (agent : String) : CircuitBreaker :=
  {cb with failure_counts := Function.update cb.failure_counts agent 0}

/-- Model of `CircuitBreaker.record_failure`: increment the count; at or above the
threshold set `open_until = now + recovery` and emit a trip metric,
returning whether the circuit was opened. -/
def record_failure (cb : CircuitBreaker) (m : Metrics) (now : ℚ)
    (agent : String) : CircuitBreaker × Metrics × Bool :=
  let c := cb.failure_counts agent + 1
  let cb1 := {cb with failure_counts := Function.update cb.failure_counts agent c}
  if cb.failure_threshold ≤ c then
    ({cb1 with
        circuit_open_until :=
          Function.update cb1.circuit_open_until agent (some (now + cb.recovery_time))},
     {m with breakerTrips := bump m.breakerTrips agent}, true)
  else (cb1, m, false)

/-- A sequence of consecutive `record_failure` calls for one agent, at the
given clock readings. -/
def recordFailures (cb : CircuitBreaker) (m : Metrics) (agent : String) :
    List ℚ → CircuitBreaker × Metrics
  | [] => (cb, m)
  | t :: rest =>
      let r := record_failure cb m t agent
      recordFailures r.1 r.2.1 agent rest

/-! ### app/utils.py : parallel executor -/

/-- The possible fates of one task inside `execute_parallel`: a value, an
exception, or an `asyncio.TimeoutError`. -/
inductive TaskOutcome (β : Type) where
  | ok (val : β) : TaskOutcome β
  | errored : TaskOutcome β
  | timedOut : TaskOutcome β

set_option linter.unusedVariables false in
/-- Model of `execute_parallel` from app/utils.py: gather over the items in order,
swallowing exceptions and timeouts into `none` slots. -/
def execute_parallel {α β : Type} (func : α → TaskOutcome β) (items : List α)
    (max_concurrency : Nat) (timeout : ℚ) : List (Option β) :=
  items.map (fun i =>
    match func i with
    | .ok v => some v
    | .errored => none
    | .timedOut => none)

/-- The declared default of `max_concurrency` in `execute_parallel`. -/
def execute_parallel_default_max_concurrency : Nat := 10

/-- The declared default of `timeout` (seconds) in `execute_parallel`. -/
def execute_parallel_default_timeout : ℚ := 5

/-- The `max_concurrency` argument `route_to_agents` passes at its call site
(app/router.py line 299). -/
def route_to_agents_call_max_concurrency : Nat := 5

/-- The `timeout` argument `route_to_agents` passes at its call site
(app/router.py line 300). -/
def route_to_agents_call_timeout : ℚ := 3

/-! ### app/router.py : agent caller with retry -/

/-- What one HTTP POST to an agent does: return a status and body, or raise
a transport/timeout error. -/
inductive HttpAttempt where
  | response (status : Nat) (body : Json) : HttpAttempt
  | failure : HttpAttempt

/-- One attempt of `call_agent` (app/router.py lines 141-192).  The non-2xx
branch records a breaker failure and a `status_error` downstream-fail count
and raises; that raise is caught by the function's own `except Exception`
block, which records a second breaker failure and a `call_error` count
before re-raising.  A transport error goes through the `except` block once. -/
def call_agent_attempt (cb : CircuitBreaker) (m : Metrics) (now : ℚ)
    (agent : String) (att : HttpAttempt) :
    CircuitBreaker × Metrics × Option Json :=
  let r0 := is_circuit_open cb now agent
  if r0.2 then (r0.1, m, none)
  else if agent = "DLQ" then
    (r0.1, m, some (Json.obj [("status", Json.str "queued_for_dlq")]))
  else
    match (AGENT_ENDPOINTS.lookup agent).getD none with
    | none =>
        (r0.1,
         {m with downstreamFail := bump m.downstreamFail (agent, "missing_endpoint")},
         none)
    | some _ =>
        match att with
        | .response status body =>
            if 200 ≤ status ∧ status < 300 then
              (record_success r0.1 agent,
               {m with downstreamSuccess := bump m.downstreamSuccess agent},
               some body)
            else
              let r1 := record_failure r0.1 m now agent
              let m1 :=
                {r1.2.1 with
                  downstreamFail := bump r1.2.1.downstreamFail (agent, "status_error")}
              let r2 := record_failure r1.1 m1 now agent
              (r2.1,
               {r2.2.1 with
                 downstreamFail := bump r2.2.1.downstreamFail (agent, "call_error")},
               none)
        | .failure =>
            let r1 := record_failure r0.1 m now agent
            (r1.1,
             {r1.2.1 with
               downstreamFail := bump r1.2.1.downstreamFail (agent, "call_error")},
             none)

/-- Model of `call_agent` under its `with_retry(max_attempts=3)` wrapper: retry while
attempts remain and the call keeps raising.  The wrapper's `RETRY_ATTEMPTS`
counters use label `kwargs.get('agent', 'unknown')`, which is `"unknown"`
because `route_to_agents` passes the agent positionally. -/
def call_agent_retry (cb : CircuitBreaker) (m : Metrics) (now : ℚ)
    (agent : String) : List HttpAttempt → CircuitBreaker × Metrics × Option Json
  | [] => (cb, m, none)
  | att :: rest =>
      let m1 := {m with retryAttempts := bump m.retryAttempts ("unknown", "attempt")}
      let r := call_agent_attempt cb m1 now agent att
      match r.2.2 with
      | some b =>
          (r.1,
           {r.2.1 with
             retryAttempts := bump r.2.1.retryAttempts ("unknown", "success")},
           some b)
      | none =>
          let m3 :=
            {r.2.1 with
              retryAttempts := bump r.2.1.retryAttempts ("unknown", "failure")}
          match rest with
          | [] => (r.1, m3, none)
          | next :: more => call_agent_retry r.1 m3 now agent (next :: more)

/-! ### CPython `time.strptime(ts, "%Y-%m-%dT%H:%M:%SZ")` -/

/-- Value of a decimal digit character. -/
def digitVal (c : Char) : Option Nat :=
  if c.isDigit then some (c.toNat - 48) else none

/-- Two leading digits of a character list. -/
def twoDigit : List Char → Option (Nat × Nat × List Char)
  | c1 :: c2 :: rest =>
      match digitVal c1, digitVal c2 with
      | some a, some b => some (a, b, rest)
      | _, _ => none
  | _ => none

/-- One leading digit of a character list. -/
def oneDigit : List Char → Option (Nat × List Char)
  | c :: rest => (digitVal c).map (fun d => (d, rest))
  | [] => none

/-- Field `%Y` — exactly four digits (`_strptime.TimeRE`). -/
def yearCands (cs : List Char) : List (Nat × List Char) :=
  match cs with
  | c1 :: c2 :: c3 :: c4 :: rest =>
      match digitVal c1, digitVal c2, digitVal c3, digitVal c4 with
      | some a, some b, some c, some d => [(((a * 10 + b) * 10 + c) * 10 + d, rest)]
      | _, _, _, _ => []
  | _ => []

/-- Field `%m` — the regex `1[0-2]|0[1-9]|[1-9]`, alternatives in order. -/
def monthCands (cs : List Char) : List (Nat × List Char) :=
  (match twoDigit cs with
   | some (1, b, rest) => if b ≤ 2 then [(10 + b, rest)] else []
   | some (0, b, rest) => if 1 ≤ b then [(b, rest)] else []
   | _ => []) ++
  (match oneDigit cs with
   | some (d, rest) => if 1 ≤ d then [(d, rest)] else []
   | none => [])

/-- Field `%d` — the regex `3[01]|[12]\d|0[1-9]|[1-9]`. -/
def dayCands (cs : List Char) : List (Nat × List Char) :=
  (match twoDigit cs with
   | some (3, b, rest) => if b ≤ 1 then [(30 + b, rest)] else []
   | some (1, b, rest) => [(10 + b, rest)]
   | some (2, b, rest) => [(20 + b, rest)]
   | some (0, b, rest) => if 1 ≤ b then [(b, rest)] else []
   | _ => []) ++
  (match oneDigit cs with
   | some (d, rest) => if 1 ≤ d then [(d, rest)] else []
   | none => [])

/-- Field `%H` — the regex `2[0-3]|[0-1]\d|\d`. -/
def hourCands (cs : List Char) : List (Nat × List Char) :=
  (match twoDigit cs with
   | some (2, b, rest) => if b ≤ 3 then [(20 + b, rest)] else []
   | some (0, b, rest) => [(b, rest)]
   | some (1, b, rest) => [(10 + b, rest)]
   | _ => []) ++
  (match oneDigit cs with
   | some (d, rest) => [(d, rest)]
   | none => [])

/-- Field `%M` — the regex `[0-5]\d|\d`. -/
def minCands (cs : List Char) : List (Nat × List Char) :=
  (match twoDigit cs with
   | some (a, b, rest) => if a ≤ 5 then [(10 * a + b, rest)] else []
   | none => []) ++
  (match oneDigit cs with
   | some (d, rest) => [(d, rest)]
   | none => [])

/-- Field `%S` — the regex `6[0-1]|[0-5]\d|\d`. -/
def secCands (cs : List Char) : List (Nat × List Char) :=
  (match twoDigit cs with
   | some (6, b, rest) => if b ≤ 1 then [(60 + b, rest)] else []
   | some (a, b, rest) => if a ≤ 5 then [(10 * a + b, rest)] else []
   | none => []) ++
  (match oneDigit cs with
   | some (d, rest) => [(d, rest)]
   | none => [])

/-- A literal character of the format string (`_strptime` compiles its
regex with `re.IGNORECASE`, so format literals match case-insensitively). -/
def litTail (c : Char) : List Char → Option (List Char)
  | x :: rest => if x.toLower = c.toLower then some rest else none
  | [] => none

/-- Gregorian leap year, as `datetime.date` uses. -/
def leapYear (y : Nat) : Bool := (y % 4 == 0 && y % 100 != 0) || y % 400 == 0

/-- Days in a month. -/
def daysInMonth (y m : Nat) : Nat :=
  if m = 2 then (if leapYear y then 29 else 28)
  else if m = 4 ∨ m = 6 ∨ m = 9 ∨ m = 11 then 30
  else 31

/-- The date validity `_strptime` enforces by constructing
`datetime.date(year, month, day)` for the julian-day computation. -/
def validDate (y m d : Nat) : Bool :=
  1 ≤ y && 1 ≤ d && d ≤ daysInMonth y m

/-- Match `%S` then the literal `Z` then end of input. -/
def secondsTailOk (cs : List Char) : Bool :=
  (secCands cs).any (fun p =>
    match litTail 'Z' p.2 with
    | some [] => true
    | _ => false)

/-- Match `%M:` then the rest. -/
def minutesTailOk (cs : List Char) : Bool :=
  (minCands cs).any (fun p =>
    match litTail ':' p.2 with
    | some r => secondsTailOk r
    | none => false)

/-- Match `%H:` then the rest. -/
def hoursTailOk (cs : List Char) : Bool :=
  (hourCands cs).any (fun p =>
    match litTail ':' p.2 with
    | some r => minutesTailOk r
    | none => false)

/-- Match `%dT` then the rest, with the date validity check. -/
def dayTailOk (y m : Nat) (cs : List Char) : Bool :=
  (dayCands cs).any (fun p =>
    validDate y m p.1 &&
      (match litTail 'T' p.2 with
       | some r => hoursTailOk r
       | none => false))

/-- Match `%m-` then the rest. -/
def monthTailOk (y : Nat) (cs : List Char) : Bool :=
  (monthCands cs).any (fun p =>
    match litTail '-' p.2 with
    | some r => dayTailOk y p.1 r
    | none => false)

/-- Whether `time.strptime(s, "%Y-%m-%dT%H:%M:%SZ")` succeeds — the
processing-time computation in the `/route` upsert raises exactly when this
is false. -/
def strptimeOk (s : String) : Bool :=
  (yearCands s.toList).any (fun p =>
    match litTail '-' p.2 with
    | some r => monthTailOk p.1 r
    | none => false)

/-- The exact zero-padded shape `YYYY-MM-DDTHH:MM:SSZ`. -/
def canonicalTsForm (s : String) : Bool :=
  match s.toList with
  | [y1, y2, y3, y4, a1, m1, m2, a2, d1, d2, tc, h1, h2, b1, n1, n2, b2, x1,
     x2, zc] =>
      y1.isDigit && y2.isDigit && y3.isDigit && y4.isDigit && a1 == '-' &&
      m1.isDigit && m2.isDigit && a2 == '-' && d1.isDigit && d2.isDigit &&
      tc == 'T' && h1.isDigit && h2.isDigit && b1 == ':' && n1.isDigit &&
      n2.isDigit && b2 == ':' && x1.isDigit && x2.isDigit && zc == 'Z'
  | _ => false

/-! ### app/main.py : the /route handler tail -/

/-- A row of the `logs` table, keyed by `log_id` in the table model. -/
structure LogRow where
  ts : String
  sender_id : String
  kind : String
  routed_agents : List String
  response : List (String × Json)

/-- The `/route` request body: the fixed metadata shell plus the open
extension bag (`extra="allow"`). -/
structure RouteRequest where
  tenant_id : String
  event_id : Option String
  user_id : Option String
  payload_version : Int
  type : Option String
  ts : Option String
  kind : Option String
  extra : List (String × Json)

/-- Model of `dict.get(k, default)` for string-valued JSON entries. -/
def jsonGetStr (r : List (String × Json)) (k dflt : String) : String :=
  match r.lookup k with
  | some (Json.str s) => s
  | _ => dflt

/-- Model of `{**response, key: value}` on an association list: replace in place or
append at the end. -/
def setKey : List (String × Json) → String → Json → List (String × Json)
  | [], k, v => [(k, v)]
  | (k0, v0) :: rest, k, v =>
      if k0 = k then (k0, v) :: rest else (k0, v0) :: setKey rest k v

/-- Everything the `/route` handler decides after `route_to_agents`
returns, plus the dedupe short-circuit before it. -/
structure RouteOutcome where
  logs : List (String × LogRow)
  status : String
  routed_agents : List String
  trace_id : String
  logging_fallback : Bool
  rolled_back : Bool
  response_dict : List (String × Json)

/-- The `/route` handler (app/main.py lines 191-308) with the fan-out
outcome of `route_to_agents` supplied as `routing` and database health of
the final upsert as `dbOk`: compute `ts` and the canonical id, short-circuit
duplicates to `already_processed`, otherwise attempt the logs upsert — which
raises when `time.strptime(ts, "%Y-%m-%dT%H:%M:%SZ")` raises or the
database errors, in which case the transaction is rolled back, a
`logging_fallback` structured log is emitted and the response dict is
annotated `logging_status: failed` — and reply with
`response.get("status", "routed")` and the routed agents. -/
def route_handler (logs : List (String × LogRow)) (req : RouteRequest)
    (now_iso_str trace_id : String)
    (routing : List String × List (String × Json)) (dbOk : Bool) :
    RouteOutcome :=
  let ts := if truthyStr req.ts then req.ts.getD "" else now_iso_str
  let classification_payload := req.extra
  let message_id :=
    generate_canonical_message_id req.tenant_id req.event_id req.user_id ts
      req.payload_version classification_payload
  match logs.lookup message_id with
  | some row =>
      { logs := logs, status := "already_processed",
        routed_agents := row.routed_agents, trace_id := trace_id,
        logging_fallback := false, rolled_back := false,
        response_dict := row.response }
  | none =>
      let kind :=
        if truthyStr req.kind then req.kind.getD ""
        else (classify classification_payload).1
      let routed := routing.1
      let resp := routing.2
      if strptimeOk ts && dbOk then
        let row : LogRow :=
          { ts := ts,
            sender_id :=
              (if truthyStr req.user_id then req.user_id.getD "" else "unknown"),
            kind := kind, routed_agents := routed, response := resp }
        { logs := logs ++ [(message_id, row)],
          status := jsonGetStr resp "status" "routed", routed_agents := routed,
          trace_id := trace_id, logging_fallback := false, rolled_back := false,
          response_dict := resp }
      else
        { logs := logs, status := jsonGetStr resp "status" "routed",
          routed_agents := routed, trace_id := trace_id,
          logging_fallback := true, rolled_back := true,
          response_dict := setKey resp "logging_status" (Json.str "failed") }

/-! ### db/replay_dlq.py : replay of one DLQ item -/

/-- A row of the `dlq` table (payload text abstracted to its parse result
at the use site). -/
structure DlqRow where
  id : Int
  log_id : String
  attempts : Nat

/-- The two tables `replay_item` touches. -/
structure ReplayDB where
  logs : List (String × LogRow)
  dlq : List DlqRow

/-- Model of `replay_item` from db/replay_dlq.py, with `parsed` the outcome of
`json.loads(payload_text)`: on a parse error the exception path increments
`replay_items_total{automated,error}` and bumps `attempts`; if the `log_id`
already exists in `logs` the DLQ row is deleted with outcome `skipped` and
nothing is written; otherwise the simplified classification runs, a
`status: replayed` row is inserted and the DLQ row deleted with outcome
`success`.  No path touches `ingress_total`. -/
def replay_item (db : ReplayDB) (m : Metrics) (id2 : Int) (log_id : String)
    (parsed : Option (List (String × Json))) (nowIso : String) :
    ReplayDB × Metrics × Bool :=
  match parsed with
  | none =>
      ({db with
          dlq := db.dlq.map (fun r =>
            if r.id = id2 then {r with attempts := r.attempts + 1} else r)},
       {m with replayItems := bump m.replayItems ("automated", "error")}, false)
  | some payload =>
      if (db.logs.lookup log_id).isSome then
        ({db with dlq := db.dlq.filter (fun r => !(r.id == id2))},
         {m with replayItems := bump m.replayItems ("automated", "skipped")},
         true)
      else
        let msg := lowerStr (defaultDumps (Json.obj payload))
        let kind :=
          if ["emergency", "urgent", "crisis"].any (fun k => strContains msg k) then
            "emergency"
          else if ["policy", "compliance"].any (fun k => strContains msg k) then
            "policy"
          else "assist"
        let row : LogRow :=
          { ts := nowIso, sender_id := jsonGetStr payload "user_id" "unknown",
            kind := kind, routed_agents := ["Axis"],
            response := [("status", Json.str "replayed"),
                         ("source", Json.str "dlq_replay")] }
        ({db with
            logs := db.logs ++ [(log_id, row)],
            dlq := db.dlq.filter (fun r => !(r.id == id2))},
         {m with replayItems := bump m.replayItems ("automated", "success")},
         true)

/-! ## Helper lemmas -/

theorem dumpFields_eq_map (sortK : Bool) (isep ksep : String)
    (l : List (String × Json)) :
    dumpFields sortK isep ksep l =
      l.map (fun kv => (kv.1, dumpJson sortK isep ksep kv.2)) := by
  induction l with
  | nil => rfl
  | cons kv rest ih => simp [dumpFields, ih]

theorem sorted_strict_of_nodup_keys {s : List (String × String)}
    (hs : List.Sorted keyLE s) (hn : (s.map Prod.fst).Nodup) :
    List.Sorted keyLT s := by
  have hpw : s.Pairwise (fun a b => a.1 ≠ b.1) := List.pairwise_map.mp hn
  exact (hs.and hpw).imp (fun h => lt_of_le_of_ne h.1 h.2)

theorem sortPairs_congr {l1 l2 : List (String × String)} (hp : l1.Perm l2)
    (hnd : (l1.map Prod.fst).Nodup) : sortPairs l1 = sortPairs l2 := by
  have h1 : (sortPairs l1).Perm l1 := List.perm_insertionSort keyLE l1
  have h2 : (sortPairs l2).Perm l2 := List.perm_insertionSort keyLE l2
  have hnd2 : (l2.map Prod.fst).Nodup := ((hp.map Prod.fst).nodup_iff).mp hnd
  have hnd1s : ((sortPairs l1).map Prod.fst).Nodup :=
    ((h1.map Prod.fst).nodup_iff).mpr hnd
  have hnd2s : ((sortPairs l2).map Prod.fst).Nodup :=
    ((h2.map Prod.fst).nodup_iff).mpr hnd2
  exact List.eq_of_perm_of_sorted (h1.trans (hp.trans h2.symm))
    (sorted_strict_of_nodup_keys (List.sorted_insertionSort keyLE l1) hnd1s)
    (sorted_strict_of_nodup_keys (List.sorted_insertionSort keyLE l2) hnd2s)

theorem canonicalDumps_obj_congr {l1 l2 : List (String × Json)}
    (hp : l1.Perm l2) (hnd : (l1.map Prod.fst).Nodup) :
    canonicalDumps (Json.obj l1) = canonicalDumps (Json.obj l2) := by
  unfold canonicalDumps
  simp only [dumpJson, dumpFields_eq_map, if_pos]
  have hmp : (l1.map (fun kv => (kv.1, dumpJson true "," ":" kv.2))).Perm
      (l2.map (fun kv => (kv.1, dumpJson true "," ":" kv.2))) :=
    hp.map _
  have hk1 : ((l1.map (fun kv => (kv.1, dumpJson true "," ":" kv.2))).map
      Prod.fst).Nodup := by
    rw [List.map_map]
    exact hnd
  rw [sortPairs_congr hmp hk1]

theorem canonicalJsonOf_perm {p q : List (String × Json)} (hp : p.Perm q)
    (hnd : (p.map Prod.fst).Nodup) : canonicalJsonOf p = canonicalJsonOf q := by
  unfold canonicalJsonOf
  apply canonicalDumps_obj_congr (hp.filter _)
  exact hnd.sublist ((List.filter_sublist p).map Prod.fst)

theorem canonicalPayload_erase (p : List (String × Json)) (k : String)
    (hk : k ∈ volatileKeys) :
    canonicalPayload (p.filter (fun kv => !(kv.1 == k))) = canonicalPayload p := by
  unfold canonicalPayload
  rw [List.filter_filter]
  apply List.filter_congr
  intro a _
  by_cases hak : a.1 = k
  · have hc : volatileKeys.contains a.1 = true := by
      rw [hak]
      exact List.elem_eq_true_of_mem hk
    rw [hc]
    rfl
  · have hb : (a.1 == k) = false := beq_eq_false_iff_ne.mpr hak
    rw [hb, Bool.not_false, Bool.and_true]

/-! ## C2 : canonical message id -/

/-- C2 : the canonical message id is a pure function of
(tenant_id, identifier, payload_version, canonical payload): it is
unchanged when the payload's keys are reordered or when any of `trace_id`,
`timestamp`, `ts` is removed from the payload; it equals
`sha256(tenant ":" identifier ":" version ":" canonical_json)` truncated to
32 hex characters, with the identifier `event_id` if non-empty, else
`user_id ":" ts_iso`, else `sha256(canonical_json)[:16]`. -/
theorem c2_message_id_determinism (tenant : String) (event user : Option String)
    (ts : String) (ver : Int) (p q : List (String × Json)) (k : String)
    (hperm : p.Perm q) (hnd : (p.map Prod.fst).Nodup) (hk : k ∈ volatileKeys) :
    generate_canonical_message_id tenant event user ts ver q =
        generate_canonical_message_id tenant event user ts ver p
    ∧ generate_canonical_message_id tenant event user ts ver
          (p.filter (fun kv => !(kv.1 == k))) =
        generate_canonical_message_id tenant event user ts ver p
    ∧ generate_canonical_message_id tenant event user ts ver p =
        (sha256hex (tenant ++ ":" ++
            identifierOf event user ts (canonicalJsonOf p) ++ ":" ++
            toString ver ++ ":" ++ canonicalJsonOf p)).take 32
    ∧ identifierOf event user ts (canonicalJsonOf p) =
        (if truthyStr event then event.getD ""
         else if truthyStr user then user.getD "" ++ ":" ++ ts
         else (sha256hex (canonicalJsonOf p)).take 16) := by
  have hjson : canonicalJsonOf q = canonicalJsonOf p :=
    (canonicalJsonOf_perm hperm hnd).symm
  have hjson2 : canonicalJsonOf (p.filter (fun kv => !(kv.1 == k))) =
      canonicalJsonOf p := by
    unfold canonicalJsonOf
    rw [canonicalPayload_erase p k hk]
  refine ⟨?_, ?_, rfl, rfl⟩
  · unfold generate_canonical_message_id
    rw [hjson]
  · unfold generate_canonical_message_id
    rw [hjson2]

/-- Witness for C2 at a concrete request: the two-key payload
`[("b", 1), ("a", "x")]`, its key-reordering, and the volatile key `ts`. -/
theorem c2_message_id_determinism_witness :
    ([(("b" : String), Json.num 1), ("a", Json.str "x")]).Perm
        [("a", Json.str "x"), ("b", Json.num 1)]
    ∧ (([(("b" : String), Json.num 1), ("a", Json.str "x")]).map
        Prod.fst).Nodup
    ∧ "ts" ∈ volatileKeys
    ∧ generate_canonical_message_id "t1" none (some "u1")
          "2025-09-20T10:20:30Z" 1 [("a", Json.str "x"), ("b", Json.num 1)] =
        generate_canonical_message_id "t1" none (some "u1")
          "2025-09-20T10:20:30Z" 1 [("b", Json.num 1), ("a", Json.str "x")] :=
  ⟨List.Perm.swap ("a", Json.str "x") ("b", Json.num 1) [],
   by decide, by decide,
   (c2_message_id_determinism "t1" none (some "u1") "2025-09-20T10:20:30Z" 1
      [("b", Json.num 1), ("a", Json.str "x")]
      [("a", Json.str "x"), ("b", Json.num 1)] "ts"
      (List.Perm.swap ("a", Json.str "x") ("b", Json.num 1) [])
      (by decide) (by decide)).1⟩

/-! ## C6 : classifier -/

theorem sum_three_eq (text : String) (kws : List String) :
    ((kws.map (fun k => if strContains text k then (3 : ℚ) else 0)).sum) =
      3 * (kws.countP (fun k => strContains text k) : ℚ) := by
  induction kws with
  | nil => simp
  | cons k rest ih =>
      cases hb : strContains text k with
      | true =>
          simp [hb, ih, List.countP_cons]
          ring
      | false => simp [hb, ih, List.countP_cons]

/-- C6 : the classifier serializes the payload to a case-insensitive
string, scores each kind as `min(3·matches/(3·|keywords|) + 0.5, 0.99)`
when at least one keyword matches, returns the kind with the highest score
with ties broken in the order `emergency > policy > assist`, and returns
`("unknown", 0.5)` when nothing scores; being a pure function of the
payload it is deterministic. -/
theorem c6_classifier_refines_claim (payload : List (String × Json)) :
    classify payload = classifyClaim payload := by
  have hsc : ∀ kws : List String, ∀ text : String,
      ((kws.map (fun k => if strContains text k then (3 : ℚ) else 0)).sum) /
          ((kws.length : ℚ) * 3) =
        (3 * (kws.countP (fun k => strContains text k) : ℚ)) /
          (3 * (kws.length : ℚ)) := by
    intro kws text
    rw [sum_three_eq, mul_comm ((kws.length : ℚ)) 3]
  unfold classify classifyClaim
  simp only [KEYWORDS, List.filterMap_cons, List.filterMap_nil, List.lookup,
    Option.getD_some]
  simp only [hsc]
  rfl

/-! ## C9 : agents_for totality -/

/-- C9 : `agents_for` is total and never returns an empty list — any kind
outside the static map falls back to `["DLQ"]` — so the empty-agents branch
of `route_to_agents` (DLQ reason `no_agents_for_kind`, status
`no_agents_available`) is unreachable for every input. -/
theorem c9_agents_for_never_empty (kind : String) :
    agents_for kind ≠ [] ∧ route_branch kind ≠ FanoutBranch.emptyAgents := by
  have h : agents_for kind ≠ [] := by
    unfold agents_for KIND_MAP
    cases h1 : kind == "assist" <;> cases h2 : kind == "policy" <;>
      cases h3 : kind == "emergency" <;> cases h4 : kind == "unknown" <;>
        simp [List.lookup, h1, h2, h3, h4]
  refine ⟨h, ?_⟩
  show (if (agents_for kind).isEmpty = true then FanoutBranch.emptyAgents
      else if agents_for kind = ["DLQ"] then FanoutBranch.dlqOnly
      else FanoutBranch.fanout) ≠ FanoutBranch.emptyAgents
  split
  · next hempty =>
      rw [List.isEmpty_iff] at hempty
      exact absurd hempty h
  · split <;> simp

/-- Witness for C9 at the concrete kind `"weird"`, which is outside the
static map. -/
theorem c9_agents_for_never_empty_witness :
    agents_for "weird" ≠ [] ∧ route_branch "weird" ≠ FanoutBranch.emptyAgents :=
  c9_agents_for_never_empty "weird"

/-! ## C3 : parallel executor -/

/-- C3 counterexample: the declared defaults of `execute_parallel` are not
`max_concurrency = 5` and `timeout = 3` as the claim states (they are 10
and 5.0; the values 5 and 3.0 are what `route_to_agents` passes at its call
site). -/
theorem c3_defaults_counterexample :
    ¬ (execute_parallel_default_max_concurrency = 5 ∧
        execute_parallel_default_timeout = 3) := by
  intro h
  exact absurd h.1 (by decide)

/-- C3 (amended) : the parallel executor returns exactly one slot per item
in input order, with `none` where the task errored or timed out, and never
fails itself; its declared defaults are `max_concurrency = 10` and
`timeout = 5` seconds, while the router's fan-out call site passes
`max_concurrency = 5` and `timeout = 3` seconds. -/
theorem c3_parallel_executor (α β : Type) (func : α → TaskOutcome β)
    (items : List α) (mc : Nat) (t : ℚ) :
    (execute_parallel func items mc t).length = items.length
    ∧ (∀ i : Nat, (execute_parallel func items mc t)[i]? =
        (items[i]?).map (fun x =>
          match func x with
          | .ok v => some v
          | .errored => none
          | .timedOut => none))
    ∧ execute_parallel_default_max_concurrency = 10
    ∧ execute_parallel_default_timeout = 5
    ∧ route_to_agents_call_max_concurrency = 5
    ∧ route_to_agents_call_timeout = 3 := by
  refine ⟨by simp [execute_parallel], fun i => ?_, rfl, rfl, rfl, rfl⟩
  simp [execute_parallel, List.getElem?_map]

/-! ## C1 : downstream failure accounting of call_agent -/

/-- C1 evaluated at the failing input (agent `Axis`, fresh breaker and
metrics, HTTP 500 responses): a single non-2xx attempt records TWO breaker
failures and increments `downstream_fail_total{Axis}` twice (once
`status_error`, once `call_error`), because the `status_error` raise is
caught by `call_agent`'s own `except` block; three 500 attempts under the
retry wrapper yield 6 breaker failures, 3 `status_error` plus 3
`call_error` increments, and two breaker trips — not the "exactly one per
attempt / exactly 3 total" of the claim. -/
theorem c1_non2xx_double_count :
    (call_agent_attempt circuit_breaker Metrics.zero 0 "Axis"
        (HttpAttempt.response 500 Json.null)).1.failure_counts "Axis" = 2
    ∧ (call_agent_attempt circuit_breaker Metrics.zero 0 "Axis"
        (HttpAttempt.response 500 Json.null)).2.1.downstreamFail
          ("Axis", "status_error") = 1
    ∧ (call_agent_attempt circuit_breaker Metrics.zero 0 "Axis"
        (HttpAttempt.response 500 Json.null)).2.1.downstreamFail
          ("Axis", "call_error") = 1
    ∧ (call_agent_retry circuit_breaker Metrics.zero 0 "Axis"
        [HttpAttempt.response 500 Json.null, HttpAttempt.response 500 Json.null,
         HttpAttempt.response 500 Json.null]).1.failure_counts "Axis" = 6
    ∧ (call_agent_retry circuit_breaker Metrics.zero 0 "Axis"
        [HttpAttempt.response 500 Json.null, HttpAttempt.response 500 Json.null,
         HttpAttempt.response 500 Json.null]).2.1.downstreamFail
          ("Axis", "status_error") = 3
    ∧ (call_agent_retry circuit_breaker Metrics.zero 0 "Axis"
        [HttpAttempt.response 500 Json.null, HttpAttempt.response 500 Json.null,
         HttpAttempt.response 500 Json.null]).2.1.downstreamFail
          ("Axis", "call_error") = 3
    ∧ (call_agent_retry circuit_breaker Metrics.zero 0 "Axis"
        [HttpAttempt.response 500 Json.null, HttpAttempt.response 500 Json.null,
         HttpAttempt.response 500 Json.null]).2.1.breakerTrips "Axis" = 2
    ∧ (call_agent_retry circuit_breaker Metrics.zero 0 "Axis"
        [HttpAttempt.response 500 Json.null, HttpAttempt.response 500 Json.null,
         HttpAttempt.response 500 Json.null]).2.2.isNone = true := by
  decide

/-! ## C4 : logging failure isolation -/

theorem setKey_lookup (r : List (String × Json)) (k : String) (v : Json) :
    (setKey r k v).lookup k = some v := by
  induction r with
  | nil => simp [setKey, List.lookup]
  | cons kv rest ih =>
      rcases kv with ⟨k0, v0⟩
      by_cases h : k0 = k
      · subst h
        simp [setKey, List.lookup]
      · have hb : (k == k0) = false := beq_eq_false_iff_ne.mpr (Ne.symm h)
        simp [setKey, h, List.lookup, hb, ih]

/-- C4 : for a request that reaches the logs upsert, the status and
routed_agents returned to the client are determined solely by the routing
outcome and unchanged when the upsert raises: on a database error the
transaction is rolled back, an `event=logging_fallback` structured log is
emitted, the response dict is annotated `logging_status: failed`, and the
routing status is still reported. -/
theorem c4_logging_isolated (logs : List (String × LogRow)) (req : RouteRequest)
    (nowIso trace : String) (routing : List String × List (String × Json))
    (hnew : logs.lookup (generate_canonical_message_id req.tenant_id req.event_id
        req.user_id (if truthyStr req.ts then req.ts.getD "" else nowIso)
        req.payload_version req.extra) = none) :
    (route_handler logs req nowIso trace routing false).status =
        (route_handler logs req nowIso trace routing true).status
    ∧ (route_handler logs req nowIso trace routing false).status =
        jsonGetStr routing.2 "status" "routed"
    ∧ (route_handler logs req nowIso trace routing false).routed_agents = routing.1
    ∧ (route_handler logs req nowIso trace routing true).routed_agents = routing.1
    ∧ (route_handler logs req nowIso trace routing false).rolled_back = true
    ∧ (route_handler logs req nowIso trace routing false).logging_fallback = true
    ∧ ((route_handler logs req nowIso trace routing false).response_dict).lookup
        "logging_status" = some (Json.str "failed")
    ∧ (route_handler logs req nowIso trace routing false).logs = logs := by
  have keyF : route_handler logs req nowIso trace routing false =
      { logs := logs, status := jsonGetStr routing.2 "status" "routed",
        routed_agents := routing.1, trace_id := trace, logging_fallback := true,
        rolled_back := true,
        response_dict := setKey routing.2 "logging_status" (Json.str "failed") } := by
    simp only [route_handler, hnew, Bool.and_false, Bool.false_eq_true, if_false]
  have keyT : (route_handler logs req nowIso trace routing true).status =
        jsonGetStr routing.2 "status" "routed"
      ∧ (route_handler logs req nowIso trace routing true).routed_agents =
        routing.1 := by
    simp only [route_handler, hnew, Bool.and_true]
    by_cases hsp :
      strptimeOk (if truthyStr req.ts then req.ts.getD "" else nowIso) = true
    · rw [if_pos hsp]
      exact ⟨rfl, rfl⟩
    · rw [if_neg hsp]
      exact ⟨rfl, rfl⟩
  rw [keyF]
  exact ⟨keyT.1.symm, rfl, rfl, keyT.2, rfl, rfl, setKey_lookup _ _ _, rfl⟩

/-- Witness for C4 at a concrete new request with a healthy-vs-failing
final upsert. -/
theorem c4_logging_isolated_witness :
    (List.lookup (generate_canonical_message_id "t1" none (some "u1")
        (if truthyStr (some "2025-09-20T10:20:30Z") then
          (some "2025-09-20T10:20:30Z").getD ""
         else "2025-01-01T00:00:00Z") 1 [("text", Json.str "help")])
      ([] : List (String × LogRow)) = none)
    ∧ (route_handler [] ⟨"t1", none, some "u1", 1, none,
          some "2025-09-20T10:20:30Z", none, [("text", Json.str "help")]⟩
          "2025-01-01T00:00:00Z" "tr" (["Axis"], [("status", Json.str "success")])
          false).status =
        (route_handler [] ⟨"t1", none, some "u1", 1, none,
          some "2025-09-20T10:20:30Z", none, [("text", Json.str "help")]⟩
          "2025-01-01T00:00:00Z" "tr" (["Axis"], [("status", Json.str "success")])
          true).status :=
  ⟨rfl,
   (c4_logging_isolated [] ⟨"t1", none, some "u1", 1, none,
      some "2025-09-20T10:20:30Z", none, [("text", Json.str "help")]⟩
      "2025-01-01T00:00:00Z" "tr" (["Axis"], [("status", Json.str "success")])
      rfl).1⟩

/-! ## C10 : caller-supplied ts and the upsert fallback path -/

/-- C10 counterexample: `ts = "2025-9-2T1:2:3Z"` is not in the exact form
`YYYY-MM-DDTHH:MM:SSZ`, yet `strptime`'s regexes accept unpadded fields, so
the processing-time computation does NOT raise and, with a healthy
database, a logs row IS written — refuting the claim that every such ts
always takes the fallback path. -/
theorem c10_unpadded_ts_counterexample :
    canonicalTsForm "2025-9-2T1:2:3Z" = false
    ∧ strptimeOk "2025-9-2T1:2:3Z" = true
    ∧ (route_handler [] ⟨"t1", none, some "u1", 1, none,
          some "2025-9-2T1:2:3Z", none, []⟩ "2025-01-01T00:00:00Z" "tr"
          (["Axis"], [("status", Json.str "success")]) true).logging_fallback =
        false
    ∧ (route_handler [] ⟨"t1", none, some "u1", 1, none,
          some "2025-9-2T1:2:3Z", none, []⟩ "2025-01-01T00:00:00Z" "tr"
          (["Axis"], [("status", Json.str "success")]) true).logs.length = 1 := by
  exact ⟨by decide, by decide, rfl, rfl⟩

/-- C10 (amended) : for a caller-supplied non-empty `ts` that
`time.strptime(ts, "%Y-%m-%dT%H:%M:%SZ")` rejects (e.g. fractional seconds
or a `+00:00` offset), the upsert always takes the fallback path: the logs
table is unchanged — no row is ever written for that message id — the
routing status is still returned, and an identical repeat of the request is
routed again rather than answered `already_processed`. -/
theorem c10_bad_ts_fallback (logs : List (String × LogRow)) (req : RouteRequest)
    (ts nowIso trace : String)
    (routing : List String × List (String × Json)) (dbOk : Bool)
    (hts : req.ts = some ts) (hne : ts ≠ "") (hbad : strptimeOk ts = false)
    (hnew : logs.lookup (generate_canonical_message_id req.tenant_id req.event_id
        req.user_id ts req.payload_version req.extra) = none) :
    (route_handler logs req nowIso trace routing dbOk).logs = logs
    ∧ (route_handler logs req nowIso trace routing dbOk).logging_fallback = true
    ∧ (route_handler logs req nowIso trace routing dbOk).rolled_back = true
    ∧ (route_handler logs req nowIso trace routing dbOk).status =
        jsonGetStr routing.2 "status" "routed"
    ∧ (route_handler (route_handler logs req nowIso trace routing dbOk).logs req
        nowIso trace routing dbOk).status = jsonGetStr routing.2 "status" "routed"
    ∧ (route_handler (route_handler logs req nowIso trace routing dbOk).logs req
        nowIso trace routing dbOk).logs = logs := by
  have hts2 : (if truthyStr req.ts then req.ts.getD "" else nowIso) = ts := by
    rw [hts]
    simp [truthyStr, hne]
  have key : route_handler logs req nowIso trace routing dbOk =
      { logs := logs, status := jsonGetStr routing.2 "status" "routed",
        routed_agents := routing.1, trace_id := trace, logging_fallback := true,
        rolled_back := true,
        response_dict := setKey routing.2 "logging_status" (Json.str "failed") } := by
    simp only [route_handler, hts2, hnew, hbad, Bool.false_and,
      Bool.false_eq_true, if_false]
  have hlogs : (route_handler logs req nowIso trace routing dbOk).logs = logs := by
    rw [key]
  refine ⟨hlogs, by rw [key], by rw [key], by rw [key], ?_, ?_⟩
  · rw [hlogs, key]
  · rw [hlogs, key]

/-- Witness for C10 at a concrete request whose ts carries a `+00:00`
offset. -/
theorem c10_bad_ts_fallback_witness :
    strptimeOk "2025-09-20T10:20:30+00:00" = false
    ∧ (route_handler [] ⟨"t1", none, some "u1", 1, none,
          some "2025-09-20T10:20:30+00:00", none, [("text", Json.str "help")]⟩
          "2025-01-01T00:00:00Z" "tr" (["Axis"], [("status", Json.str "success")])
          true).logs = [] :=
  ⟨by decide,
   (c10_bad_ts_fallback [] ⟨"t1", none, some "u1", 1, none,
      some "2025-09-20T10:20:30+00:00", none, [("text", Json.str "help")]⟩
      "2025-09-20T10:20:30+00:00" "2025-01-01T00:00:00Z" "tr"
      (["Axis"], [("status", Json.str "success")]) true rfl (by decide)
      (by decide) rfl).1⟩

/-! ## C5 : replay dedupe -/

/-- C5 : for any DLQ row whose `log_id` already exists in `logs`,
`replay_item` deletes the DLQ row without inserting or updating anything in
`logs`, increments `replay_items_total{outcome=skipped}` by one, does not
touch `ingress_total`, and reports success. -/
theorem c5_replay_dedupe (db : ReplayDB) (m : Metrics) (id2 : Int)
    (log_id : String) (payload : List (String × Json)) (nowIso : String)
    (hdup : (db.logs.lookup log_id).isSome = true) :
    (replay_item db m id2 log_id (some payload) nowIso).1.logs = db.logs
    ∧ (replay_item db m id2 log_id (some payload) nowIso).1.dlq =
        db.dlq.filter (fun r => !(r.id == id2))
    ∧ (replay_item db m id2 log_id (some payload) nowIso).2.1.replayItems
        ("automated", "skipped") = m.replayItems ("automated", "skipped") + 1
    ∧ (replay_item db m id2 log_id (some payload) nowIso).2.1.ingressTotal =
        m.ingressTotal
    ∧ (replay_item db m id2 log_id (some payload) nowIso).2.2 = true := by
  have hres : replay_item db m id2 log_id (some payload) nowIso =
      ({db with dlq := db.dlq.filter (fun r => !(r.id == id2))},
       {m with replayItems := bump m.replayItems ("automated", "skipped")},
       true) := by
    simp only [replay_item, hdup, if_true]
  rw [hres]
  exact ⟨rfl, rfl, by simp [bump], rfl, rfl⟩

/-- Witness for C5 at a concrete database holding `log_id = "L1"` in both
tables. -/
theorem c5_replay_dedupe_witness :
    ((ReplayDB.mk [("L1", ⟨"t", "u", "assist", ["Axis"], []⟩)]
        [⟨7, "L1", 0⟩, ⟨8, "L2", 1⟩]).logs.lookup "L1").isSome = true
    ∧ (replay_item (ReplayDB.mk [("L1", ⟨"t", "u", "assist", ["Axis"], []⟩)]
        [⟨7, "L1", 0⟩, ⟨8, "L2", 1⟩]) Metrics.zero 7 "L1"
        (some [("user_id", Json.str "u9")]) "2025-01-01T00:00:00Z").1.logs =
      (ReplayDB.mk [("L1", ⟨"t", "u", "assist", ["Axis"], []⟩)]
        [⟨7, "L1", 0⟩, ⟨8, "L2", 1⟩]).logs :=
  ⟨rfl,
   (c5_replay_dedupe (ReplayDB.mk [("L1", ⟨"t", "u", "assist", ["Axis"], []⟩)]
      [⟨7, "L1", 0⟩, ⟨8, "L2", 1⟩]) Metrics.zero 7 "L1"
      [("user_id", Json.str "u9")] "2025-01-01T00:00:00Z" rfl).1⟩

/-! ## C7 : rate limiter -/

/-- C7 counterexample: with sender `u1` at 6000 requests inside the window,
the next request is rejected, but the reason-labelled rejection counter
(`router_rejected_total`) is NOT incremented with `reason=rate_limit`; the
counter that moves is `RATE_LIMIT_HITS`, labelled by `sender_id`. -/
theorem c7_rejection_counter_counterexample :
    (check_rate_limit ⟨100, 60, [("u1", [((0 : Int), 6000)])]⟩ Metrics.zero 0
        "u1").2.2 = false
    ∧ (check_rate_limit ⟨100, 60, [("u1", [((0 : Int), 6000)])]⟩ Metrics.zero 0
        "u1").2.1.rejectedTotal "rate_limit" = 0
    ∧ (check_rate_limit ⟨100, 60, [("u1", [((0 : Int), 6000)])]⟩ Metrics.zero 0
        "u1").2.1.rateLimitHits "u1" = 1 := by
  decide

/-- C7 (amended) : the rate limiter admits a request for sender `s` iff the
sum of `s`'s per-second counts within the window is strictly below
`limit_per_second · window_size` (100·60 by default); every rejection
increments the rate-limit-hits counter labelled by `sender_id` (not a
`reason=rate_limit` rejection counter, which stays untouched) and surfaces
HTTP 429 "Rate limit exceeded". -/
theorem c7_rate_limiter (rl : RateLimiter) (m : Metrics) (now : Int)
    (s : String) :
    ((check_rate_limit rl m now s).2.2 = true ↔
      ((((rl.windows.lookup s).getD []).filter
          (fun p => now - (rl.window_size : Int) ≤ p.1)).map Prod.snd).sum <
        rl.limit_per_second * rl.window_size)
    ∧ ((check_rate_limit rl m now s).2.2 = false →
        (check_rate_limit rl m now s).2.1.rateLimitHits s = m.rateLimitHits s + 1
        ∧ (check_rate_limit rl m now s).2.1.rejectedTotal = m.rejectedTotal
        ∧ (http_check_rate_limit rl m now (some s)).2.2 =
            Except.error (429, "Rate limit exceeded"))
    ∧ ((check_rate_limit rl m now s).2.2 = true →
        (check_rate_limit rl m now s).2.1 = m)
    ∧ rate_limiter.limit_per_second = 100 ∧ rate_limiter.window_size = 60 := by
  by_cases hc : rl.limit_per_second * rl.window_size ≤
      ((((rl.windows.lookup s).getD []).filter
        (fun p => now - (rl.window_size : Int) ≤ p.1)).map Prod.snd).sum
  · have hres : check_rate_limit rl m now s =
        (RateLimiter.mk rl.limit_per_second rl.window_size
          (setWindow rl.windows s
            (((rl.windows.lookup s).getD []).filter
              (fun p => now - (rl.window_size : Int) ≤ p.1))),
         {m with rateLimitHits := bump m.rateLimitHits s}, false) := by
      simp only [check_rate_limit]
      rw [if_pos hc]
    have hhttp : (http_check_rate_limit rl m now (some s)).2.2 =
        Except.error (429, "Rate limit exceeded") := by
      simp [http_check_rate_limit, hres]
    rw [hres]
    refine ⟨⟨fun h => absurd h Bool.false_ne_true,
      fun h => absurd h (not_lt.mpr hc)⟩,
      fun _ => ⟨by simp [bump], rfl, hhttp⟩,
      fun h => absurd h Bool.false_ne_true, rfl, rfl⟩
  · have hlt := not_le.mp hc
    have hres : check_rate_limit rl m now s =
        (RateLimiter.mk rl.limit_per_second rl.window_size
          (setWindow rl.windows s
            (bumpAt (((rl.windows.lookup s).getD []).filter
              (fun p => now - (rl.window_size : Int) ≤ p.1)) now)),
         m, true) := by
      simp only [check_rate_limit]
      rw [if_neg hc]
    rw [hres]
    exact ⟨⟨fun _ => hlt, fun _ => rfl⟩, fun h => absurd h (Bool.false_ne_true ∘ Eq.symm),
      fun _ => rfl, rfl, rfl⟩

/-- Witness for C7: an empty window admits, and a full window's rejection
bumps the sender-labelled counter. -/
theorem c7_rate_limiter_witness :
    (check_rate_limit ⟨100, 60, []⟩ Metrics.zero 5 "u1").2.2 = true
    ∧ (check_rate_limit ⟨100, 60, [("u1", [((0 : Int), 6000)])]⟩ Metrics.zero 0
        "u1").2.1.rateLimitHits "u1" = Metrics.zero.rateLimitHits "u1" + 1 :=
  ⟨(c7_rate_limiter ⟨100, 60, []⟩ Metrics.zero 5 "u1").1.mpr (by decide),
   ((c7_rate_limiter ⟨100, 60, [("u1", [((0 : Int), 6000)])]⟩ Metrics.zero 0
      "u1").2.1 (by decide)).1⟩

/-! ## C8 : circuit breaker -/

theorem record_failure_static (cb : CircuitBreaker) (m : Metrics) (now : ℚ)
    (a : String) :
    (record_failure cb m now a).1.failure_threshold = cb.failure_threshold
    ∧ (record_failure cb m now a).1.recovery_time = cb.recovery_time := by
  unfold record_failure
  dsimp only
  split <;> exact ⟨rfl, rfl⟩

theorem record_failure_count (cb : CircuitBreaker) (m : Metrics) (now : ℚ)
    (a : String) :
    (record_failure cb m now a).1.failure_counts a = cb.failure_counts a + 1 := by
  unfold record_failure
  dsimp only
  split <;> simp [Function.update]

theorem record_failure_other (cb : CircuitBreaker) (m : Metrics) (now : ℚ)
    (a b : String) (hb : b ≠ a) :
    (record_failure cb m now a).1.failure_counts b = cb.failure_counts b
    ∧ (record_failure cb m now a).1.circuit_open_until b =
        cb.circuit_open_until b := by
  unfold record_failure
  dsimp only
  split <;> constructor <;> simp [Function.update, hb]

theorem record_failure_open (cb : CircuitBreaker) (m : Metrics) (now : ℚ)
    (a : String) (h : cb.failure_threshold ≤ cb.failure_counts a + 1) :
    (record_failure cb m now a).1.circuit_open_until a =
      some (now + cb.recovery_time) := by
  unfold record_failure
  dsimp only
  rw [if_pos h]
  simp [Function.update]

theorem recordFailures_append (cb : CircuitBreaker) (m : Metrics) (a : String)
    (l1 l2 : List ℚ) :
    recordFailures cb m a (l1 ++ l2) =
      recordFailures (recordFailures cb m a l1).1 (recordFailures cb m a l1).2 a
        l2 := by
  induction l1 generalizing cb m with
  | nil => rfl
  | cons t rest ih => simp [recordFailures, ih]

theorem recordFailures_count (cb : CircuitBreaker) (m : Metrics) (a : String)
    (ts : List ℚ) :
    (recordFailures cb m a ts).1.failure_counts a =
      cb.failure_counts a + ts.length := by
  induction ts generalizing cb m with
  | nil => rfl
  | cons t rest ih =>
      simp only [recordFailures, List.length_cons]
      rw [ih, record_failure_count]
      omega

theorem recordFailures_static (cb : CircuitBreaker) (m : Metrics) (a : String)
    (ts : List ℚ) :
    (recordFailures cb m a ts).1.failure_threshold = cb.failure_threshold
    ∧ (recordFailures cb m a ts).1.recovery_time = cb.recovery_time := by
  induction ts generalizing cb m with
  | nil => exact ⟨rfl, rfl⟩
  | cons t rest ih =>
      simp only [recordFailures]
      constructor
      · rw [(ih _ _).1, (record_failure_static cb m t a).1]
      · rw [(ih _ _).2, (record_failure_static cb m t a).2]

theorem recordFailures_other (cb : CircuitBreaker) (m : Metrics) (a b : String)
    (ts : List ℚ) (hb : b ≠ a) :
    (recordFailures cb m a ts).1.failure_counts b = cb.failure_counts b
    ∧ (recordFailures cb m a ts).1.circuit_open_until b =
        cb.circuit_open_until b := by
  induction ts generalizing cb m with
  | nil => exact ⟨rfl, rfl⟩
  | cons t rest ih =>
      simp only [recordFailures]
      constructor
      · rw [(ih _ _).1, (record_failure_other cb m t a b hb).1]
      · rw [(ih _ _).2, (record_failure_other cb m t a b hb).2]

theorem recordFailures_open (cb : CircuitBreaker) (m : Metrics) (a : String)
    (ts : List ℚ) (hne : ts ≠ [])
    (hthr : cb.failure_threshold ≤ cb.failure_counts a + ts.length) :
    (recordFailures cb m a ts).1.circuit_open_until a =
      some (ts.getLast hne + cb.recovery_time) := by
  obtain ⟨l, t, rfl⟩ : ∃ l t, ts = l ++ [t] :=
    ⟨ts.dropLast, ts.getLast hne, (List.dropLast_append_getLast hne).symm⟩
  rw [recordFailures_append]
  have hcount : (recordFailures cb m a l).1.failure_counts a =
      cb.failure_counts a + l.length := recordFailures_count cb m a l
  have hthr2 : (recordFailures cb m a l).1.failure_threshold ≤
      (recordFailures cb m a l).1.failure_counts a + 1 := by
    rw [(recordFailures_static cb m a l).1, hcount]
    simp only [List.length_append, List.length_cons, List.length_nil] at hthr
    omega
  show (recordFailures _ _ a [t]).1.circuit_open_until a = _
  simp only [recordFailures]
  rw [record_failure_open _ _ _ _ hthr2, (recordFailures_static cb m a l).2]
  congr 1
  simp [List.getLast_append]

/-- C8 : after N ≥ threshold consecutive `record_failure(a)` calls,
`is_open(a)` is true and remains true until at least `recovery` seconds
have elapsed since the last failure; once `open_until` has passed, the next
`is_open(a)` check clears it and resets a's failure count to 0; breakers
for different agents are independent; the global instance uses threshold 5
and recovery 30 seconds. -/
theorem c8_circuit_breaker (cb : CircuitBreaker) (m : Metrics) (a b : String)
    (ts : List ℚ) (t q : ℚ) (hne : ts ≠ [])
    (hthr : cb.failure_threshold ≤ ts.length)
    (hlt : t < ts.getLast hne + cb.recovery_time)
    (hge : ts.getLast hne + cb.recovery_time ≤ q) (hab : b ≠ a) :
    (is_circuit_open (recordFailures cb m a ts).1 t a).2 = true
    ∧ (is_circuit_open (recordFailures cb m a ts).1 q a).2 = false
    ∧ (is_circuit_open (recordFailures cb m a ts).1 q a).1.circuit_open_until a =
        none
    ∧ (is_circuit_open (recordFailures cb m a ts).1 q a).1.failure_counts a = 0
    ∧ (recordFailures cb m a ts).1.failure_counts b = cb.failure_counts b
    ∧ (recordFailures cb m a ts).1.circuit_open_until b = cb.circuit_open_until b
    ∧ circuit_breaker.failure_threshold = 5
    ∧ circuit_breaker.recovery_time = 30 := by
  have hopen : (recordFailures cb m a ts).1.circuit_open_until a =
      some (ts.getLast hne + cb.recovery_time) :=
    recordFailures_open cb m a ts hne (le_trans hthr (Nat.le_add_left _ _))
  refine ⟨?_, ?_, ?_, ?_, (recordFailures_other cb m a b ts hab).1,
    (recordFailures_other cb m a b ts hab).2, rfl, rfl⟩
  · unfold is_circuit_open
    rw [hopen]
    dsimp only
    rw [if_pos hlt]
  · unfold is_circuit_open
    rw [hopen]
    dsimp only
    rw [if_neg (not_lt.mpr hge)]
  · unfold is_circuit_open
    rw [hopen]
    dsimp only
    rw [if_neg (not_lt.mpr hge)]
    simp [Function.update]
  · unfold is_circuit_open
    rw [hopen]
    dsimp only
    rw [if_neg (not_lt.mpr hge)]
    simp [Function.update]

/-- Witness for C8: five failures of `Axis` at time 0 on the default
breaker keep it open at t = 29 and clear it at t = 30, leaving `M`
untouched. -/
theorem c8_circuit_breaker_witness :
    (([(0 : ℚ), 0, 0, 0, 0] : List ℚ) ≠ [])
    ∧ circuit_breaker.failure_threshold ≤ ([(0 : ℚ), 0, 0, 0, 0] : List ℚ).length
    ∧ (is_circuit_open
        (recordFailures circuit_breaker Metrics.zero "Axis"
          [(0 : ℚ), 0, 0, 0, 0]).1 29 "Axis").2 = true :=
  ⟨by decide, by decide,
   (c8_circuit_breaker circuit_breaker Metrics.zero "Axis" "M"
      [(0 : ℚ), 0, 0, 0, 0] 29 30 (by decide) (by decide)
      (by norm_num [List.getLast, circuit_breaker])
      (by norm_num [List.getLast, circuit_breaker]) (by decide)).1⟩

end RouterSpec
